import Mathlib

/-!
# Verification of the Stonefish articulated multi-body core

Shallow embedding of the `FeatherstoneEntity` multi-body tree
(`FeatherstoneEntity.h`) and of the `LiDAR360::InternalUpdate` scan loop
(`LiDAR360.cpp`), with theorems settling the specification claims.

Scalars are modelled as exact rationals (`ℚ`); vector lengths, which the
code obtains via a square root, live in `ℝ`.  The external Bullet
forward-dynamics back end (`btMultiBody`) is out of scope of the
repository; its per-joint generalized state and the per-step integration
are modelled from the specification as explicit state, with the numerical
integrator abstracted as an oracle parameter.
-/

namespace Stonefish

instance {ε α : Type} [DecidableEq ε] [DecidableEq α] : DecidableEq (Except ε α)
  | .ok a, .ok b =>
    if h : a = b then .isTrue (by rw [h]) else .isFalse (fun hc => h (Except.ok.inj hc))
  | .ok _, .error _ => .isFalse (fun hc => Except.noConfusion hc)
  | .error _, .ok _ => .isFalse (fun hc => Except.noConfusion hc)
  | .error e, .error e2 =>
    if h : e = e2 then .isTrue (by rw [h]) else .isFalse (fun hc => h (Except.error.inj hc))

/-- A 3-vector of exact scalars, modelling `btVector3`. -/
structure Vec3 where
  x : ℚ
  y : ℚ
  z : ℚ
deriving DecidableEq

instance : Zero Vec3 := ⟨⟨0, 0, 0⟩⟩

instance : Add Vec3 := ⟨fun a b => ⟨a.x + b.x, a.y + b.y, a.z + b.z⟩⟩

instance : Sub Vec3 := ⟨fun a b => ⟨a.x - b.x, a.y - b.y, a.z - b.z⟩⟩

instance : Neg Vec3 := ⟨fun a => ⟨-a.x, -a.y, -a.z⟩⟩

instance : SMul ℚ Vec3 := ⟨fun c v => ⟨c * v.x, c * v.y, c * v.z⟩⟩

/-- Dot product of two 3-vectors. -/
def Vec3.dot (a b : Vec3) : ℚ :=
  a.x * b.x + a.y * b.y + a.z * b.z

/-- Cross product of two 3-vectors. -/
def Vec3.cross (a b : Vec3) : Vec3 :=
  ⟨a.y * b.z - a.z * b.y, a.z * b.x - a.x * b.z, a.x * b.y - a.y * b.x⟩

/-- Squared Euclidean norm. -/
def Vec3.normSq (v : Vec3) : ℚ :=
  v.dot v

/-- Euclidean length, modelling `btVector3::length` (a real square root). -/
noncomputable def Vec3.length (v : Vec3) : ℝ :=
  Real.sqrt ((v.normSq : ℚ) : ℝ)

/-- A rigid transform, modelling `btTransform` as the three basis columns
plus the origin. -/
structure Transform where
  col0 : Vec3
  col1 : Vec3
  col2 : Vec3
  origin : Vec3
deriving DecidableEq

/-- The identity transform. -/
def Transform.identityT : Transform :=
  ⟨⟨1, 0, 0⟩, ⟨0, 1, 0⟩, ⟨0, 0, 1⟩, ⟨0, 0, 0⟩⟩

/-- Modelled from the spec: the only property of a `SolidEntity` the
dynamics core consumes here is its mass (used by `ApplyGravity`); the
shape/rendering surface of `SolidEntity` is external. -/
structure SolidEntity where
  mass : ℚ
deriving DecidableEq

/-- A link record, from `struct FeatherstoneLink`: the solid body and the
fixed transform attached to it. -/
structure FeatherstoneLink where
  solid : SolidEntity
  trans : Transform
deriving DecidableEq

instance : Inhabited FeatherstoneLink := ⟨⟨⟨0⟩, Transform.identityT⟩⟩

/-- The joint types used by the tree, from
`btMultibodyLink::eFeatherstoneJointType` restricted to the values the
header uses (revolute, prismatic, fixed). -/
inductive FeatherstoneJointType where
  | eRevolute
  | ePrismatic
  | eFixed
deriving DecidableEq

/-- Parameters of a joint position-limit constraint, modelling the data
carried by `btMultiBodyJointLimitConstraint`. -/
structure JointLimitConstraint where
  lower : ℚ
  upper : ℚ
deriving DecidableEq

/-- Modelled from the spec: the limit constraint keeps the joint position
inside `[lower, upper]` (enforced by the back end). -/
def JointLimitConstraint.admits (L : JointLimitConstraint) (p : ℚ) : Prop :=
  L.lower ≤ p ∧ p ≤ L.upper

/-- Modelled from the spec: the motor sub-object carries a commanded
position/velocity setpoint with proportional gain `kp` and derivative
gain `kd` (`btMultiBodyJointMotor` settings). -/
structure JointMotor where
  targetPos : ℚ
  targetVel : ℚ
  kp : ℚ
  kd : ℚ
deriving DecidableEq

/-- The joint feedback accumulator, modelling `btMultiBodyJointFeedback`:
reaction force and torque in the child link CoG frame. -/
structure JointFeedback where
  force : Vec3
  torque : Vec3
deriving DecidableEq

/-- A joint record, from `struct FeatherstoneJoint`: type, the three
optional sub-objects, parent/child link indices and the two damping
coefficients. -/
structure FeatherstoneJoint where
  type : FeatherstoneJointType
  feedback : Option JointFeedback
  limit : Option JointLimitConstraint
  motor : Option JointMotor
  parent : ℕ
  child : ℕ
  sigDamping : ℚ
  velDamping : ℚ
deriving DecidableEq

/-- The `FeatherstoneJoint` constructor from the header: sub-object
pointers start `NULL` and both damping coefficients start at zero. -/
def FeatherstoneJoint.init (t : FeatherstoneJointType) (p c : ℕ) : FeatherstoneJoint :=
  ⟨t, none, none, none, p, c, 0, 0⟩

instance : Inhabited FeatherstoneJoint := ⟨FeatherstoneJoint.init .eFixed 0 0⟩

/-- Modelled from the spec: the back end's per-joint generalized state —
position, velocity, and the two per-step force accumulators.
`appliedTorque` holds the manually injected forces (`DriveJoint`) and is
what `getJointTorque` reports; `dampingTorque` holds the damping
contribution of `ApplyDamping`.  Their sum is the joint's generalized
force for the step. -/
structure JointDofState where
  pos : ℚ
  vel : ℚ
  appliedTorque : ℚ
  dampingTorque : ℚ
deriving DecidableEq

instance : Inhabited JointDofState := ⟨⟨0, 0, 0, 0⟩⟩

/-- Modelled from the spec: the back end's per-link runtime state — world
pose, velocities and the per-step external force/torque accumulators. -/
structure LinkDofState where
  worldTransform : Transform
  linVel : Vec3
  angVel : Vec3
  forceAccum : Vec3
  torqueAccum : Vec3
deriving DecidableEq

instance : Inhabited LinkDofState := ⟨⟨Transform.identityT, 0, 0, 0, 0⟩⟩

/-- Modelled from the spec: the external `btMultiBody` object owned by the
tree, holding the authoritative runtime state, pre-sized at construction
(hence total functions over indices; the API bounds-checks accesses). -/
structure MultiBody where
  jointState : ℕ → JointDofState
  jointAxis : ℕ → Vec3
  linkState : ℕ → LinkDofState

/-- The multi-body tree, from `class FeatherstoneEntity`: the declared
link budget, the base-fixing flag, the owned back-end object, and the
ordered link and joint records. -/
structure FeatherstoneEntity where
  uniqueName : String
  totalLinks : ℕ
  fixedBase : Bool
  multiBody : MultiBody
  links : List FeatherstoneLink
  joints : List FeatherstoneJoint
  baseRenderable : Bool

/-- The error kinds signalled at the API boundary (spec section 7). -/
inductive FEError where
  | outOfRange
  | tooManyLinks
  | fixedJointForbidden
  | motorExists
  | invalidLimit
  | noMotor
  | noFeedback
deriving DecidableEq

namespace FeatherstoneEntity

/-- Modelled from the spec: the constructor registers the base solid as
link 0 and allocates the back-end object with cleared state. -/
def create (uniqueName : String) (totalNumOfLinks : ℕ) (baseSolid : SolidEntity)
    (fixedBase : Bool) : FeatherstoneEntity :=
  { uniqueName := uniqueName
    totalLinks := totalNumOfLinks
    fixedBase := fixedBase
    multiBody := ⟨fun _ => default, fun _ => 0, fun _ => default⟩
    links := [⟨baseSolid, Transform.identityT⟩]
    joints := []
    baseRenderable := true }

/-- `getNumOfLinks`. -/
def getNumOfLinks (s : FeatherstoneEntity) : ℕ :=
  s.links.length

/-- `getNumOfJoints`. -/
def getNumOfJoints (s : FeatherstoneEntity) : ℕ :=
  s.joints.length

/-- Modelled from the spec: `AddLink` appends a link and fails if called
more times than the declared total link count. -/
def addLink (s : FeatherstoneEntity) (solid : SolidEntity) (trans : Transform) :
    Except FEError FeatherstoneEntity :=
  if s.links.length < s.totalLinks then
    .ok { s with links := s.links ++ [⟨solid, trans⟩] }
  else .error .tooManyLinks

/-- Modelled from the spec: common core of the `AddXJoint` calls — checks
the link indices, appends a joint record built by the `FeatherstoneJoint`
constructor, and registers the motion axis with the back end.  Joint
indices are assigned in call order, 0-based. -/
def addJoint (s : FeatherstoneEntity) (t : FeatherstoneJointType) (parent child : ℕ)
    (axis : Vec3) : Except FEError FeatherstoneEntity :=
  if parent < s.links.length ∧ child < s.links.length then
    .ok { s with
      joints := s.joints ++ [FeatherstoneJoint.init t parent child]
      multiBody := { s.multiBody with
        jointAxis := fun n => if n = s.joints.length then axis else s.multiBody.jointAxis n } }
  else .error .outOfRange

/-- Modelled from the spec: `AddRevoluteJoint` (the pivot and the
collision flag are forwarded to the back end, not stored in the record). -/
def addRevoluteJoint (s : FeatherstoneEntity) (parent child : ℕ) (pivot axis : Vec3)
    (collisionBetweenJointLinks : Bool) : Except FEError FeatherstoneEntity :=
  s.addJoint .eRevolute parent child axis

/-- Modelled from the spec: `AddPrismaticJoint`. -/
def addPrismaticJoint (s : FeatherstoneEntity) (parent child : ℕ) (axis : Vec3)
    (collisionBetweenJointLinks : Bool) : Except FEError FeatherstoneEntity :=
  s.addJoint .ePrismatic parent child axis

/-- Modelled from the spec: `AddFixedJoint` (0-DOF; still occupies a joint
slot). -/
def addFixedJoint (s : FeatherstoneEntity) (parent child : ℕ) :
    Except FEError FeatherstoneEntity :=
  s.addJoint .eFixed parent child 0

/-- Modelled from the spec: `AddJointMotor` attaches a motor sub-object;
fails if the joint is Fixed or a motor already exists. -/
def addJointMotor (s : FeatherstoneEntity) (index : ℕ) :
    Except FEError FeatherstoneEntity :=
  if index < s.joints.length then
    match (s.joints.getD index default).motor with
    | some _ => .error .motorExists
    | none =>
      if (s.joints.getD index default).type = .eFixed then .error .fixedJointForbidden
      else
        .ok { s with joints :=
          s.joints.set index { s.joints.getD index default with motor := some ⟨0, 0, 0, 0⟩ } }
  else .error .outOfRange

/-- Modelled from the spec: `AddJointLimit` attaches a position-limit
constraint; fails if the joint is Fixed or if `lower > upper`. -/
def addJointLimit (s : FeatherstoneEntity) (index : ℕ) (lower upper : ℚ) :
    Except FEError FeatherstoneEntity :=
  if index < s.joints.length then
    if (s.joints.getD index default).type = .eFixed then .error .fixedJointForbidden
    else if upper < lower then .error .invalidLimit
    else
      .ok { s with joints :=
        s.joints.set index { s.joints.getD index default with limit := some ⟨lower, upper⟩ } }
  else .error .outOfRange

/-- Modelled from the spec: `MotorPositionSetpoint` programs the motor's
proportional position-servo law. -/
def motorPositionSetpoint (s : FeatherstoneEntity) (index : ℕ) (pos kp : ℚ) :
    Except FEError FeatherstoneEntity :=
  if index < s.joints.length then
    match (s.joints.getD index default).motor with
    | none => .error .noMotor
    | some m =>
      .ok { s with joints :=
        s.joints.set index ({ s.joints.getD index default with
          motor := some ({ m with targetPos := pos, kp := kp }) }) }
  else .error .outOfRange

/-- Modelled from the spec: `MotorVelocitySetpoint` programs the motor's
derivative velocity-servo law. -/
def motorVelocitySetpoint (s : FeatherstoneEntity) (index : ℕ) (vel kd : ℚ) :
    Except FEError FeatherstoneEntity :=
  if index < s.joints.length then
    match (s.joints.getD index default).motor with
    | none => .error .noMotor
    | some m =>
      .ok { s with joints :=
        s.joints.set index ({ s.joints.getD index default with
          motor := some ({ m with targetVel := vel, kd := kd }) }) }
  else .error .outOfRange

/-- Modelled from the spec: `DriveJoint` injects a generalized
force/torque into the joint's manual accumulator for the current step. -/
def driveJoint (s : FeatherstoneEntity) (index : ℕ) (forceTorque : ℚ) :
    Except FEError FeatherstoneEntity :=
  if index < s.joints.length then
    .ok { s with multiBody := { s.multiBody with
      jointState := fun n =>
        if n = index then
          { s.multiBody.jointState n with
            appliedTorque := (s.multiBody.jointState n).appliedTorque + forceTorque }
        else s.multiBody.jointState n } }
  else .error .outOfRange

/-- Modelled from the spec: `ApplyGravity` adds `mass • g` to every
link's force accumulator for the step. -/
def applyGravity (s : FeatherstoneEntity) (g : Vec3) : FeatherstoneEntity :=
  { s with multiBody := { s.multiBody with
    linkState := fun n =>
      if n < s.links.length then
        { s.multiBody.linkState n with
          forceAccum := (s.multiBody.linkState n).forceAccum +
            (s.links.getD n default).solid.mass • g }
      else s.multiBody.linkState n } }

/-- The sign function used by the damping law. -/
def qsign (v : ℚ) : ℚ :=
  if v < 0 then -1 else if 0 < v then 1 else 0

/-- Modelled from the spec: the per-joint damping force,
`-sign(velocity) * sigDamping - velocity * velDamping`. -/
def dampingForce (sigDamping velDamping vel : ℚ) : ℚ :=
  -(qsign vel) * sigDamping - vel * velDamping

/-- Modelled from the spec: `ApplyDamping` adds each joint's damping
force to that joint's generalized force for the step. -/
def applyDamping (s : FeatherstoneEntity) : FeatherstoneEntity :=
  { s with multiBody := { s.multiBody with
    jointState := fun n =>
      if n < s.joints.length then
        { s.multiBody.jointState n with
          dampingTorque := (s.multiBody.jointState n).dampingTorque +
            dampingForce (s.joints.getD n default).sigDamping
              (s.joints.getD n default).velDamping (s.multiBody.jointState n).vel }
      else s.multiBody.jointState n } }

/-- Modelled from the spec: `AddLinkForce` adds a world-frame force at a
link's CoG for the step. -/
def addLinkForce (s : FeatherstoneEntity) (index : ℕ) (F : Vec3) :
    Except FEError FeatherstoneEntity :=
  if index < s.links.length then
    .ok { s with multiBody := { s.multiBody with
      linkState := fun n =>
        if n = index then
          { s.multiBody.linkState n with forceAccum := (s.multiBody.linkState n).forceAccum + F }
        else s.multiBody.linkState n } }
  else .error .outOfRange

/-- Modelled from the spec: `AddLinkTorque`. -/
def addLinkTorque (s : FeatherstoneEntity) (index : ℕ) (tau : Vec3) :
    Except FEError FeatherstoneEntity :=
  if index < s.links.length then
    .ok { s with multiBody := { s.multiBody with
      linkState := fun n =>
        if n = index then
          { s.multiBody.linkState n with torqueAccum := (s.multiBody.linkState n).torqueAccum + tau }
        else s.multiBody.linkState n } }
  else .error .outOfRange

/-- Modelled from the spec: `setJointIC` writes joint position and
velocity initial conditions into the back-end state. -/
def setJointIC (s : FeatherstoneEntity) (index : ℕ) (position velocity : ℚ) :
    Except FEError FeatherstoneEntity :=
  if index < s.joints.length then
    .ok { s with multiBody := { s.multiBody with
      jointState := fun n =>
        if n = index then
          { s.multiBody.jointState n with pos := position, vel := velocity }
        else s.multiBody.jointState n } }
  else .error .outOfRange

/-- Modelled from the spec: `setJointDamping` mutates the stored damping
coefficients used by `ApplyDamping`. -/
def setJointDamping (s : FeatherstoneEntity) (index : ℕ) (constantFactor viscousFactor : ℚ) :
    Except FEError FeatherstoneEntity :=
  if index < s.joints.length then
    .ok { s with joints :=
      s.joints.set index ({ s.joints.getD index default with
        sigDamping := constantFactor, velDamping := viscousFactor }) }
  else .error .outOfRange

/-- Modelled from the spec: `getJointPosition` returns the generalized
coordinate together with the joint type tag. -/
def getJointPosition (s : FeatherstoneEntity) (index : ℕ) :
    Except FEError (ℚ × FeatherstoneJointType) :=
  if index < s.joints.length then
    .ok ((s.multiBody.jointState index).pos, (s.joints.getD index default).type)
  else .error .outOfRange

/-- Modelled from the spec: `getJointVelocity`. -/
def getJointVelocity (s : FeatherstoneEntity) (index : ℕ) :
    Except FEError (ℚ × FeatherstoneJointType) :=
  if index < s.joints.length then
    .ok ((s.multiBody.jointState index).vel, (s.joints.getD index default).type)
  else .error .outOfRange

/-- Modelled from the spec: `getJointTorque` — only shows the sum of
manually applied torques (the header's documented partial view). -/
def getJointTorque (s : FeatherstoneEntity) (index : ℕ) : Except FEError ℚ :=
  if index < s.joints.length then
    .ok (s.multiBody.jointState index).appliedTorque
  else .error .outOfRange

/-- Modelled from the spec: the feedback values the back end derives —
the reaction force, and the torque as the cross product of the CoG-to-
pivot vector with that force (both in the child CoG frame). -/
def computeJointFeedback (cogToPivot force : Vec3) : JointFeedback :=
  ⟨force, Vec3.cross cogToPivot force⟩

/-- Modelled from the spec: after the solve the back end populates the
joint's feedback accumulator from the reaction force and the CoG-to-pivot
vector. -/
def solveJointFeedback (s : FeatherstoneEntity) (index : ℕ) (cogToPivot force : Vec3) :
    FeatherstoneEntity :=
  if index < s.joints.length then
    { s with joints :=
      s.joints.set index ({ s.joints.getD index default with
        feedback := some (computeJointFeedback cogToPivot force) }) }
  else s

/-- Modelled from the spec: `getJointFeedback` reads the stored feedback
accumulator. -/
def getJointFeedback (s : FeatherstoneEntity) (index : ℕ) :
    Except FEError (Vec3 × Vec3) :=
  if index < s.joints.length then
    match (s.joints.getD index default).feedback with
    | some fb => .ok (fb.force, fb.torque)
    | none => .error .noFeedback
  else .error .outOfRange

/-- `getLink`. -/
def getLink (s : FeatherstoneEntity) (index : ℕ) : Except FEError FeatherstoneLink :=
  if index < s.links.length then .ok (s.links.getD index default) else .error .outOfRange

/-- Modelled from the spec: `getLinkTransform` reads the world pose from
the back end. -/
def getLinkTransform (s : FeatherstoneEntity) (index : ℕ) : Except FEError Transform :=
  if index < s.links.length then .ok (s.multiBody.linkState index).worldTransform
  else .error .outOfRange

/-- Modelled from the spec: `getLinkLinearVelocity`. -/
def getLinkLinearVelocity (s : FeatherstoneEntity) (index : ℕ) : Except FEError Vec3 :=
  if index < s.links.length then .ok (s.multiBody.linkState index).linVel
  else .error .outOfRange

/-- Modelled from the spec: `getLinkAngularVelocity`. -/
def getLinkAngularVelocity (s : FeatherstoneEntity) (index : ℕ) : Except FEError Vec3 :=
  if index < s.links.length then .ok (s.multiBody.linkState index).angVel
  else .error .outOfRange

/-- The joint's generalized force for the step: the manually injected
part plus the damping part. -/
def generalizedForce (s : FeatherstoneEntity) (index : ℕ) : ℚ :=
  (s.multiBody.jointState index).appliedTorque + (s.multiBody.jointState index).dampingTorque

/-- Modelled from the spec: one back-end forward-dynamics step.  The
numerical integrator is abstracted as an oracle `integ` mapping
(position, velocity, generalized force) to the next (position, velocity);
the per-step force accumulators are consumed (reset to zero). -/
def stepDynamics (integ : ℚ → ℚ → ℚ → ℚ × ℚ) (s : FeatherstoneEntity) :
    FeatherstoneEntity :=
  { s with multiBody := { s.multiBody with
    jointState := fun n =>
      if n < s.joints.length then
        ⟨(integ (s.multiBody.jointState n).pos (s.multiBody.jointState n).vel
            (s.generalizedForce n)).1,
         (integ (s.multiBody.jointState n).pos (s.multiBody.jointState n).vel
            (s.generalizedForce n)).2, 0, 0⟩
      else s.multiBody.jointState n
    linkState := fun n =>
      if n < s.links.length then
        { s.multiBody.linkState n with forceAccum := 0, torqueAccum := 0 }
      else s.multiBody.linkState n } }

end FeatherstoneEntity

/-- The non-render operations of the tree API, for trace reasoning: each
constructor names the corresponding `FeatherstoneEntity` member.  `step`
carries the abstracted back-end integrator; `solveFeedback` is the back
end writing a joint's feedback accumulator after a solve. -/
inductive Op where
  | addLink (solid : SolidEntity) (trans : Transform)
  | addRevoluteJoint (parent child : ℕ) (pivot axis : Vec3) (coll : Bool)
  | addPrismaticJoint (parent child : ℕ) (axis : Vec3) (coll : Bool)
  | addFixedJoint (parent child : ℕ)
  | addJointMotor (index : ℕ)
  | addJointLimit (index : ℕ) (lower upper : ℚ)
  | motorPositionSetpoint (index : ℕ) (pos kp : ℚ)
  | motorVelocitySetpoint (index : ℕ) (vel kd : ℚ)
  | driveJoint (index : ℕ) (forceTorque : ℚ)
  | applyGravity (g : Vec3)
  | applyDamping
  | addLinkForce (index : ℕ) (F : Vec3)
  | addLinkTorque (index : ℕ) (tau : Vec3)
  | setJointIC (index : ℕ) (position velocity : ℚ)
  | setJointDamping (index : ℕ) (constantFactor viscousFactor : ℚ)
  | solveFeedback (index : ℕ) (cogToPivot force : Vec3)
  | step (integ : ℚ → ℚ → ℚ → ℚ × ℚ)

/-- Run one API operation; failing operations report their error. -/
def execOp (s : FeatherstoneEntity) : Op → Except FEError FeatherstoneEntity
  | .addLink solid tr => s.addLink solid tr
  | .addRevoluteJoint p c pivot axis coll => s.addRevoluteJoint p c pivot axis coll
  | .addPrismaticJoint p c axis coll => s.addPrismaticJoint p c axis coll
  | .addFixedJoint p c => s.addFixedJoint p c
  | .addJointMotor i => s.addJointMotor i
  | .addJointLimit i lo hi => s.addJointLimit i lo hi
  | .motorPositionSetpoint i pos kp => s.motorPositionSetpoint i pos kp
  | .motorVelocitySetpoint i vel kd => s.motorVelocitySetpoint i vel kd
  | .driveJoint i tau => s.driveJoint i tau
  | .applyGravity g => .ok (s.applyGravity g)
  | .applyDamping => .ok s.applyDamping
  | .addLinkForce i F => s.addLinkForce i F
  | .addLinkTorque i tau => s.addLinkTorque i tau
  | .setJointIC i p v => s.setJointIC i p v
  | .setJointDamping i c v => s.setJointDamping i c v
  | .solveFeedback i r F => .ok (s.solveJointFeedback i r F)
  | .step integ => .ok (FeatherstoneEntity.stepDynamics integ s)

/-- Run a list of API operations in order; the whole trace fails if any
operation fails. -/
def exec (s : FeatherstoneEntity) : List Op → Except FEError FeatherstoneEntity
  | [] => .ok s
  | op :: rest => (execOp s op).bind (fun s2 => exec s2 rest)

/-- Whether an operation is the back-end integration step. -/
def Op.isStep : Op → Bool
  | .step _ => true
  | _ => false

/-- Whether an operation mutates the topology (links or joints added). -/
def Op.isTopology : Op → Bool
  | .addLink _ _ => true
  | .addRevoluteJoint _ _ _ _ _ => true
  | .addPrismaticJoint _ _ _ _ => true
  | .addFixedJoint _ _ => true
  | _ => false

/-- The number of `addLink` operations in a trace. -/
def countAddLink : List Op → ℕ
  | [] => 0
  | .addLink _ _ :: rest => countAddLink rest + 1
  | _ :: rest => countAddLink rest

/-- The number of `AddXJoint` operations in a trace. -/
def countAddJoint : List Op → ℕ
  | [] => 0
  | .addRevoluteJoint _ _ _ _ _ :: rest => countAddJoint rest + 1
  | .addPrismaticJoint _ _ _ _ :: rest => countAddJoint rest + 1
  | .addFixedJoint _ _ :: rest => countAddJoint rest + 1
  | _ :: rest => countAddJoint rest

/-- The generalized force injected into joint `i` by the `driveJoint`
operations of a trace. -/
def driveSum (i : ℕ) : List Op → ℚ
  | [] => 0
  | .driveJoint j tau :: rest => (if j = i then tau else 0) + driveSum i rest
  | _ :: rest => driveSum i rest

/-- The generalized force an operation injects into joint `i` through the
manual `DriveJoint` path. -/
def Op.driveContribution (op : Op) (i : ℕ) : ℚ :=
  match op with
  | .driveJoint j tau => if j = i then tau else 0
  | _ => 0

/-- How many links an operation appends. -/
def Op.linkDelta : Op → ℕ
  | .addLink _ _ => 1
  | _ => 0

/-- How many joints an operation appends. -/
def Op.jointDelta : Op → ℕ
  | .addRevoluteJoint _ _ _ _ _ => 1
  | .addPrismaticJoint _ _ _ _ => 1
  | .addFixedJoint _ _ => 1
  | _ => 0

/-- Linear interpolation between two points, modelling `btVector3::lerp`:
`v1 + (v2 - v1) * t`. -/
def lerp (a b : Vec3) (t : ℚ) : Vec3 :=
  a + t • (b - a)

namespace LiDAR360

/-- The `LiDAR360` sensor state relevant to `InternalUpdate`: the scan
geometry (`resolution_`, `layers_`), the channel range
(`channels[0].rangeMin/rangeMax`), the `distances_` buffer (pre-sized to
`resolution_ * layers_`, modelled as a total function over indices), and
the sample history. -/
structure State where
  resolution : ℕ
  layers : ℕ
  rangeMin : ℚ
  rangeMax : ℚ
  distances : ℕ → ℝ
  history : List (List ℝ)

/-- The ray start of a beam: `from = origin + dir * rangeMin`
(`LiDAR360.cpp` line 102). -/
def rayFrom (origin dir : Vec3) (rangeMin : ℚ) : Vec3 :=
  origin + rangeMin • dir

/-- The ray end of a beam: `to = origin + dir * rangeMax`
(`LiDAR360.cpp` line 103). -/
def rayTo (origin dir : Vec3) (rangeMax : ℚ) : Vec3 :=
  origin + rangeMax • dir

/-- The distance recorded for one beam (`LiDAR360.cpp` lines 111-119):
if the ray test hit with closest-hit fraction `f`, the length from the
sensor origin to `p = from.lerp(to, f)`; on a miss, `0`. -/
noncomputable def beamDistance (origin dir : Vec3) (rangeMin rangeMax : ℚ)
    (hit : Option ℚ) : ℝ :=
  match hit with
  | some f => Vec3.length (lerp (rayFrom origin dir rangeMin) (rayTo origin dir rangeMax) f - origin)
  | none => 0

/-- `LiDAR360::InternalUpdate`, with the sensor frame direction
computation of line 100 abstracted as `dir j i` (the unit direction of
layer `j`, horizontal step `i`) and the Bullet ray test abstracted as an
oracle returning the closest-hit fraction, `none` on a miss.  Every index
`j * resolution + i` of `distances_` is overwritten with the beam's
distance, and the whole buffer (of size `resolution_ * layers_`) is added
to the history as one sample. -/
noncomputable def internalUpdate (st : State) (origin : Vec3) (dir : ℕ → ℕ → Vec3)
    (rayTest : Vec3 → Vec3 → Option ℚ) : State :=
  let distances2 : ℕ → ℝ := fun idx =>
    if idx < st.resolution * st.layers then
      beamDistance origin (dir (idx / st.resolution) (idx % st.resolution))
        st.rangeMin st.rangeMax
        (rayTest (rayFrom origin (dir (idx / st.resolution) (idx % st.resolution)) st.rangeMin)
          (rayTo origin (dir (idx / st.resolution) (idx % st.resolution)) st.rangeMax))
    else st.distances idx
  { st with
    distances := distances2
    history := st.history ++ [List.ofFn (fun k : Fin (st.resolution * st.layers) => distances2 k)] }

end LiDAR360

/-- A concrete two-link arm: base plus one link joined by a revolute
joint about the world Z axis. -/
def sampleBaseTree : FeatherstoneEntity :=
  FeatherstoneEntity.create "arm" 2 ⟨1⟩ false

/-- Construction trace for `sampleTree`. -/
def sampleOps : List Op :=
  [.addLink ⟨2⟩ Transform.identityT,
   .addRevoluteJoint 0 1 0 ⟨0, 0, 1⟩ false]

/-- The constructed two-link sample tree. -/
def sampleTree : FeatherstoneEntity :=
  match exec sampleBaseTree sampleOps with
  | .ok t => t
  | .error _ => sampleBaseTree

/-- The sample tree after its `addLink` call but before its joint is
added. -/
def sampleLinked : FeatherstoneEntity :=
  match sampleBaseTree.addLink ⟨2⟩ Transform.identityT with
  | .ok t => t
  | .error _ => sampleBaseTree

/-- A trace exercising construction, initial conditions, damping
configuration, motor programming, manual drive torques, gravity, an
external link force and the back-end feedback write. -/
def c1Ops : List Op :=
  [.addLink ⟨2⟩ Transform.identityT,
   .addRevoluteJoint 0 1 0 ⟨0, 0, 1⟩ false,
   .setJointIC 0 1 2,
   .setJointDamping 0 3 4,
   .driveJoint 0 5,
   .applyDamping,
   .addJointMotor 0,
   .motorPositionSetpoint 0 10 2,
   .driveJoint 0 2,
   .solveFeedback 0 ⟨1, 0, 0⟩ ⟨0, 1, 0⟩,
   .applyGravity ⟨0, 0, -10⟩,
   .addLinkForce 1 ⟨1, 1, 1⟩]

/-- The state after running `c1Ops` from the sample base. -/
def c1Tree : FeatherstoneEntity :=
  match exec sampleBaseTree c1Ops with
  | .ok t => t
  | .error _ => sampleBaseTree

/-- The sample tree with joint 0's feedback accumulator populated by the
back end for a reaction force along Y with the joint pivot displaced
along X from the child CoG. -/
def c2Tree : FeatherstoneEntity :=
  sampleTree.solveJointFeedback 0 ⟨1, 0, 0⟩ ⟨0, 1, 0⟩

/-- A small concrete LiDAR state: 4 horizontal steps, 2 layers, range
`[0, 100]`, cleared buffer, empty history. -/
def sampleLidar : LiDAR360.State :=
  ⟨4, 2, 0, 100, fun _ => 0, []⟩

/-! ### Helper lemmas -/

theorem getD_set_self {α : Type} (l : List α) (i : ℕ) (a d : α) (h : i < l.length) :
    (l.set i a).getD i d = a := by
  simp [List.getD, List.getElem?_set_eq_of_lt, h]

theorem getD_concat_self {α : Type} (l : List α) (a d : α) :
    (l ++ [a]).getD l.length d = a := by
  simp [List.getD_append_right]

theorem driveSum_cons (i : ℕ) (op : Op) (rest : List Op) :
    driveSum i (op :: rest) = op.driveContribution i + driveSum i rest := by
  cases op <;> simp [driveSum, Op.driveContribution]

theorem countAddLink_cons (op : Op) (rest : List Op) :
    countAddLink (op :: rest) = op.linkDelta + countAddLink rest := by
  cases op <;> simp [countAddLink, Op.linkDelta] <;> omega

theorem countAddJoint_cons (op : Op) (rest : List Op) :
    countAddJoint (op :: rest) = op.jointDelta + countAddJoint rest := by
  cases op <;> simp [countAddJoint, Op.jointDelta] <;> omega

theorem nonTopology_deltas (op : Op) (h : op.isTopology = false) :
    op.linkDelta = 0 ∧ op.jointDelta = 0 := by
  cases op <;> first
    | exact ⟨rfl, rfl⟩
    | (simp [Op.isTopology] at h)

/-- A successful operation never removes or inserts anything but its
declared link/joint appends. -/
theorem execOp_lengths {s s2 : FeatherstoneEntity} (op : Op) (h : execOp s op = .ok s2) :
    s2.links.length = s.links.length + op.linkDelta ∧
    s2.joints.length = s.joints.length + op.jointDelta := by
  cases op with
  | addLink solid tr =>
    simp only [execOp, FeatherstoneEntity.addLink] at h
    split at h
    · injection h with h; subst h; simp [Op.linkDelta, Op.jointDelta]
    · exact Except.noConfusion h
  | addRevoluteJoint p c pivot axis coll =>
    simp only [execOp, FeatherstoneEntity.addRevoluteJoint, FeatherstoneEntity.addJoint] at h
    split at h
    · injection h with h; subst h; simp [Op.linkDelta, Op.jointDelta]
    · exact Except.noConfusion h
  | addPrismaticJoint p c axis coll =>
    simp only [execOp, FeatherstoneEntity.addPrismaticJoint, FeatherstoneEntity.addJoint] at h
    split at h
    · injection h with h; subst h; simp [Op.linkDelta, Op.jointDelta]
    · exact Except.noConfusion h
  | addFixedJoint p c =>
    simp only [execOp, FeatherstoneEntity.addFixedJoint, FeatherstoneEntity.addJoint] at h
    split at h
    · injection h with h; subst h; simp [Op.linkDelta, Op.jointDelta]
    · exact Except.noConfusion h
  | addJointMotor idx =>
    simp only [execOp, FeatherstoneEntity.addJointMotor] at h
    split at h
    · split at h
      · exact Except.noConfusion h
      · split at h
        · exact Except.noConfusion h
        · injection h with h; subst h; simp [Op.linkDelta, Op.jointDelta]
    · exact Except.noConfusion h
  | addJointLimit idx lo hi =>
    simp only [execOp, FeatherstoneEntity.addJointLimit] at h
    split at h
    · split at h
      · exact Except.noConfusion h
      · split at h
        · exact Except.noConfusion h
        · injection h with h; subst h; simp [Op.linkDelta, Op.jointDelta]
    · exact Except.noConfusion h
  | motorPositionSetpoint idx pos kp =>
    simp only [execOp, FeatherstoneEntity.motorPositionSetpoint] at h
    split at h
    · split at h
      · exact Except.noConfusion h
      · injection h with h; subst h; simp [Op.linkDelta, Op.jointDelta]
    · exact Except.noConfusion h
  | motorVelocitySetpoint idx vel kd =>
    simp only [execOp, FeatherstoneEntity.motorVelocitySetpoint] at h
    split at h
    · split at h
      · exact Except.noConfusion h
      · injection h with h; subst h; simp [Op.linkDelta, Op.jointDelta]
    · exact Except.noConfusion h
  | driveJoint idx tau =>
    simp only [execOp, FeatherstoneEntity.driveJoint] at h
    split at h
    · injection h with h; subst h; simp [Op.linkDelta, Op.jointDelta]
    · exact Except.noConfusion h
  | applyGravity g =>
    simp only [execOp] at h
    injection h with h; subst h
    simp [FeatherstoneEntity.applyGravity, Op.linkDelta, Op.jointDelta]
  | applyDamping =>
    simp only [execOp] at h
    injection h with h; subst h
    simp [FeatherstoneEntity.applyDamping, Op.linkDelta, Op.jointDelta]
  | addLinkForce idx F =>
    simp only [execOp, FeatherstoneEntity.addLinkForce] at h
    split at h
    · injection h with h; subst h; simp [Op.linkDelta, Op.jointDelta]
    · exact Except.noConfusion h
  | addLinkTorque idx tau =>
    simp only [execOp, FeatherstoneEntity.addLinkTorque] at h
    split at h
    · injection h with h; subst h; simp [Op.linkDelta, Op.jointDelta]
    · exact Except.noConfusion h
  | setJointIC idx p v =>
    simp only [execOp, FeatherstoneEntity.setJointIC] at h
    split at h
    · injection h with h; subst h; simp [Op.linkDelta, Op.jointDelta]
    · exact Except.noConfusion h
  | setJointDamping idx c v =>
    simp only [execOp, FeatherstoneEntity.setJointDamping] at h
    split at h
    · injection h with h; subst h; simp [Op.linkDelta, Op.jointDelta]
    · exact Except.noConfusion h
  | solveFeedback idx r F =>
    simp only [execOp] at h
    injection h with h; subst h
    simp only [FeatherstoneEntity.solveJointFeedback]
    split
    · simp [Op.linkDelta, Op.jointDelta]
    · simp [Op.linkDelta, Op.jointDelta]
  | step integ =>
    simp only [execOp] at h
    injection h with h; subst h
    simp [FeatherstoneEntity.stepDynamics, Op.linkDelta, Op.jointDelta]

/-- Within a step (no back-end solve), the only operation that changes
joint `i`'s manual torque accumulator is `driveJoint i`, which adds its
argument; the motor, damping, gravity, feedback and configuration
operations leave it unchanged. -/
theorem execOp_appliedTorque {s s2 : FeatherstoneEntity} (op : Op) (hop : op.isStep = false)
    (h : execOp s op = .ok s2) (i : ℕ) :
    (s2.multiBody.jointState i).appliedTorque =
      (s.multiBody.jointState i).appliedTorque + op.driveContribution i := by
  cases op with
  | addLink solid tr =>
    simp only [execOp, FeatherstoneEntity.addLink] at h
    split at h
    · injection h with h; subst h; simp [Op.driveContribution]
    · exact Except.noConfusion h
  | addRevoluteJoint p c pivot axis coll =>
    simp only [execOp, FeatherstoneEntity.addRevoluteJoint, FeatherstoneEntity.addJoint] at h
    split at h
    · injection h with h; subst h; simp [Op.driveContribution]
    · exact Except.noConfusion h
  | addPrismaticJoint p c axis coll =>
    simp only [execOp, FeatherstoneEntity.addPrismaticJoint, FeatherstoneEntity.addJoint] at h
    split at h
    · injection h with h; subst h; simp [Op.driveContribution]
    · exact Except.noConfusion h
  | addFixedJoint p c =>
    simp only [execOp, FeatherstoneEntity.addFixedJoint, FeatherstoneEntity.addJoint] at h
    split at h
    · injection h with h; subst h; simp [Op.driveContribution]
    · exact Except.noConfusion h
  | addJointMotor idx =>
    simp only [execOp, FeatherstoneEntity.addJointMotor] at h
    split at h
    · split at h
      · exact Except.noConfusion h
      · split at h
        · exact Except.noConfusion h
        · injection h with h; subst h; simp [Op.driveContribution]
    · exact Except.noConfusion h
  | addJointLimit idx lo hi =>
    simp only [execOp, FeatherstoneEntity.addJointLimit] at h
    split at h
    · split at h
      · exact Except.noConfusion h
      · split at h
        · exact Except.noConfusion h
        · injection h with h; subst h; simp [Op.driveContribution]
    · exact Except.noConfusion h
  | motorPositionSetpoint idx pos kp =>
    simp only [execOp, FeatherstoneEntity.motorPositionSetpoint] at h
    split at h
    · split at h
      · exact Except.noConfusion h
      · injection h with h; subst h; simp [Op.driveContribution]
    · exact Except.noConfusion h
  | motorVelocitySetpoint idx vel kd =>
    simp only [execOp, FeatherstoneEntity.motorVelocitySetpoint] at h
    split at h
    · split at h
      · exact Except.noConfusion h
      · injection h with h; subst h; simp [Op.driveContribution]
    · exact Except.noConfusion h
  | driveJoint idx tau =>
    simp only [execOp, FeatherstoneEntity.driveJoint] at h
    split at h
    · injection h with h; subst h
      simp only [Op.driveContribution]
      by_cases hni : i = idx
      · subst hni; simp
      · simp [hni, Ne.symm hni]
    · exact Except.noConfusion h
  | applyGravity g =>
    simp only [execOp] at h
    injection h with h; subst h
    simp [FeatherstoneEntity.applyGravity, Op.driveContribution]
  | applyDamping =>
    simp only [execOp] at h
    injection h with h; subst h
    by_cases hlt : i < s.joints.length <;>
      simp [FeatherstoneEntity.applyDamping, Op.driveContribution, hlt]
  | addLinkForce idx F =>
    simp only [execOp, FeatherstoneEntity.addLinkForce] at h
    split at h
    · injection h with h; subst h; simp [Op.driveContribution]
    · exact Except.noConfusion h
  | addLinkTorque idx tau =>
    simp only [execOp, FeatherstoneEntity.addLinkTorque] at h
    split at h
    · injection h with h; subst h; simp [Op.driveContribution]
    · exact Except.noConfusion h
  | setJointIC idx p v =>
    simp only [execOp, FeatherstoneEntity.setJointIC] at h
    split at h
    · injection h with h; subst h
      by_cases hni : i = idx <;> simp [Op.driveContribution, hni]
    · exact Except.noConfusion h
  | setJointDamping idx c v =>
    simp only [execOp, FeatherstoneEntity.setJointDamping] at h
    split at h
    · injection h with h; subst h; simp [Op.driveContribution]
    · exact Except.noConfusion h
  | solveFeedback idx r F =>
    simp only [execOp] at h
    injection h with h; subst h
    simp only [FeatherstoneEntity.solveJointFeedback]
    split <;> simp [Op.driveContribution]
  | step integ =>
    simp [Op.isStep] at hop

/-- Along a step-free successful trace, joint `i`'s manual torque
accumulator grows by exactly the trace's `driveJoint i` injections. -/
theorem exec_appliedTorque (ops : List Op) :
    ∀ s s2 : FeatherstoneEntity, exec s ops = .ok s2 →
    (∀ op ∈ ops, op.isStep = false) →
    ∀ i, (s2.multiBody.jointState i).appliedTorque =
      (s.multiBody.jointState i).appliedTorque + driveSum i ops := by
  induction ops with
  | nil =>
    intro s s2 h _ i
    simp only [exec] at h
    injection h with h; subst h
    simp [driveSum]
  | cons op rest ih =>
    intro s s2 h hns i
    simp only [exec] at h
    cases hop : execOp s op with
    | error e => rw [hop] at h; simp [Except.bind] at h
    | ok s1 =>
      rw [hop] at h
      simp only [Except.bind] at h
      have h1 := execOp_appliedTorque op (hns op (by simp)) hop i
      have h2 := ih s1 s2 h (fun o ho => hns o (by simp [ho])) i
      rw [h2, h1, driveSum_cons]
      ring

/-- Along a successful trace the link and joint counts grow exactly by
the number of `addLink` and `AddXJoint` operations. -/
theorem exec_lengths (ops : List Op) :
    ∀ s s2 : FeatherstoneEntity, exec s ops = .ok s2 →
    s2.links.length = s.links.length + countAddLink ops ∧
    s2.joints.length = s.joints.length + countAddJoint ops := by
  induction ops with
  | nil =>
    intro s s2 h
    simp only [exec] at h
    injection h with h; subst h
    simp [countAddLink, countAddJoint]
  | cons op rest ih =>
    intro s s2 h
    simp only [exec] at h
    cases hop : execOp s op with
    | error e => rw [hop] at h; simp [Except.bind] at h
    | ok s1 =>
      rw [hop] at h
      simp only [Except.bind] at h
      have h1 := execOp_lengths op hop
      have h2 := ih s1 s2 h
      rw [countAddLink_cons, countAddJoint_cons]
      omega

/-- What a joint freshly appended by `addJoint` looks like, and how the
sub-object-attaching and damping operations treat it. -/
theorem addJoint_fresh_aux {s s2 : FeatherstoneEntity} {t : FeatherstoneJointType} {p c : ℕ}
    {axis : Vec3} (h : s.addJoint t p c axis = .ok s2) :
    ((s2.joints.getD s.joints.length default).feedback = none ∧
     (s2.joints.getD s.joints.length default).limit = none ∧
     (s2.joints.getD s.joints.length default).motor = none ∧
     (s2.joints.getD s.joints.length default).sigDamping = 0 ∧
     (s2.joints.getD s.joints.length default).velDamping = 0) ∧
    (∀ vel : ℚ, FeatherstoneEntity.dampingForce
      (s2.joints.getD s.joints.length default).sigDamping
      (s2.joints.getD s.joints.length default).velDamping vel = 0) ∧
    s2.applyDamping.multiBody.jointState s.joints.length =
      s2.multiBody.jointState s.joints.length ∧
    s2.addJointMotor s.joints.length ≠ .error .motorExists ∧
    (t ≠ .eFixed → ∃ s3, s2.addJointMotor s.joints.length = .ok s3) ∧
    (∀ lo hi : ℚ, t ≠ .eFixed → lo ≤ hi →
      ∃ s3, s2.addJointLimit s.joints.length lo hi = .ok s3) := by
  unfold FeatherstoneEntity.addJoint at h
  split at h
  · injection h with h
    subst h
    have hg : ((s.joints ++ [FeatherstoneJoint.init t p c]).getD s.joints.length default)
        = FeatherstoneJoint.init t p c := getD_concat_self _ _ _
    have hlen : s.joints.length < (s.joints ++ [FeatherstoneJoint.init t p c]).length := by
      simp
    refine ⟨?_, ?_, ?_, ?_, ?_, ?_⟩
    · rw [hg]; exact ⟨rfl, rfl, rfl, rfl, rfl⟩
    · intro vel
      rw [hg]
      show FeatherstoneEntity.dampingForce 0 0 vel = 0
      unfold FeatherstoneEntity.dampingForce
      ring
    · simp only [FeatherstoneEntity.applyDamping]
      rw [if_pos hlen, hg]
      show ({ s.multiBody.jointState s.joints.length with
        dampingTorque := (s.multiBody.jointState s.joints.length).dampingTorque +
          FeatherstoneEntity.dampingForce 0 0
            (s.multiBody.jointState s.joints.length).vel } : JointDofState) = _
      have : FeatherstoneEntity.dampingForce 0 0
          (s.multiBody.jointState s.joints.length).vel = 0 := by
        unfold FeatherstoneEntity.dampingForce; ring
      rw [this, add_zero]
    · intro heq
      simp only [FeatherstoneEntity.addJointMotor] at heq
      rw [if_pos hlen, hg] at heq
      revert heq
      show ((match (FeatherstoneJoint.init t p c).motor with
        | some _ => (.error .motorExists : Except FEError FeatherstoneEntity)
        | none => _) ≠ _)
      show ((if (FeatherstoneJoint.init t p c).type = .eFixed then
          (.error .fixedJointForbidden : Except FEError FeatherstoneEntity)
        else _) ≠ .error .motorExists)
      split
      · exact fun hc => FEError.noConfusion (Except.error.inj hc)
      · exact fun hc => Except.noConfusion hc
    · intro hnf
      simp only [FeatherstoneEntity.addJointMotor]
      rw [if_pos hlen, hg]
      show ∃ s3, (if (FeatherstoneJoint.init t p c).type = .eFixed then
          (.error .fixedJointForbidden : Except FEError FeatherstoneEntity)
        else _) = .ok s3
      rw [if_neg (show (FeatherstoneJoint.init t p c).type ≠ FeatherstoneJointType.eFixed
        from hnf)]
      exact ⟨_, rfl⟩
    · intro lo hi hnf hle
      simp only [FeatherstoneEntity.addJointLimit]
      rw [if_pos hlen, hg,
        if_neg (show (FeatherstoneJoint.init t p c).type ≠ FeatherstoneJointType.eFixed
          from hnf),
        if_neg (not_lt.mpr hle)]
      exact ⟨_, rfl⟩
  · exact Except.noConfusion h

/-! ### Claim theorems -/

/-- Claim C1: for every joint index valid at call time, `getJointTorque`
returns exactly the sum of the generalized forces injected into that
joint via `DriveJoint` during the current step, with no contribution from
the motor control law, `ApplyDamping`, or the back end's constraint
reaction. -/
theorem getJointTorque_sums_driveJoint (s s2 : FeatherstoneEntity) (ops : List Op) (i : ℕ)
    (hz : (s.multiBody.jointState i).appliedTorque = 0)
    (hex : exec s ops = .ok s2)
    (hns : ∀ op ∈ ops, op.isStep = false)
    (hi : i < s2.joints.length) :
    s2.getJointTorque i = .ok (driveSum i ops) := by
  have hA := exec_appliedTorque ops s s2 hex hns i
  rw [hz, zero_add] at hA
  unfold FeatherstoneEntity.getJointTorque
  rw [if_pos hi, hA]

/-- Witness for C1 on a concrete trace: two `driveJoint 0` injections of
5 and 2 among damping, motor, gravity, feedback and configuration
operations. -/
theorem getJointTorque_sums_driveJoint_witness :
    c1Tree.getJointTorque 0 = .ok (driveSum 0 c1Ops) :=
  getJointTorque_sums_driveJoint sampleBaseTree c1Tree c1Ops 0 rfl rfl (by decide) (by decide)

/-- Claim C3: after a completed construction (base link, `AddLink` calls,
one `AddXJoint` per non-base link) the link count equals the joint count
plus one, and every non-topology operation preserves both counts. -/
theorem linkCount_eq_jointCount_add_one (name : String) (total : ℕ) (base : SolidEntity)
    (fb : Bool) (ops : List Op) (s2 : FeatherstoneEntity)
    (hex : exec (FeatherstoneEntity.create name total base fb) ops = .ok s2)
    (hbal : countAddLink ops = countAddJoint ops) :
    s2.getNumOfLinks = s2.getNumOfJoints + 1 ∧
    ∀ op s3, op.isTopology = false → execOp s2 op = .ok s3 →
      s3.getNumOfLinks = s2.getNumOfLinks ∧ s3.getNumOfJoints = s2.getNumOfJoints := by
  have h := exec_lengths ops _ _ hex
  constructor
  · have h1 : (FeatherstoneEntity.create name total base fb).links.length = 1 := rfl
    have h2 : (FeatherstoneEntity.create name total base fb).joints.length = 0 := rfl
    unfold FeatherstoneEntity.getNumOfLinks FeatherstoneEntity.getNumOfJoints
    omega
  · intro op s3 hnt hex3
    have h3 := execOp_lengths op hex3
    have h4 := nonTopology_deltas op hnt
    unfold FeatherstoneEntity.getNumOfLinks FeatherstoneEntity.getNumOfJoints
    omega

/-- Witness for C3 on the concrete two-link sample tree. -/
theorem linkCount_eq_jointCount_add_one_witness :
    sampleTree.getNumOfLinks = sampleTree.getNumOfJoints + 1 :=
  (linkCount_eq_jointCount_add_one "arm" 2 ⟨1⟩ false sampleOps sampleTree rfl rfl).1

/-- Claim C4: one `ApplyDamping` call adds, to each joint's generalized
force for the step, exactly
`-sign(velocity) * sigDamping - velocity * velDamping` with the
coefficients stored for that joint (as set by `setJointDamping`); the
joint records and the rest of the joint state are unchanged. -/
theorem applyDamping_adds_damping_force (s : FeatherstoneEntity) (i : ℕ)
    (hi : i < s.joints.length) :
    s.applyDamping.multiBody.jointState i =
      { s.multiBody.jointState i with
        dampingTorque := (s.multiBody.jointState i).dampingTorque +
          (-(FeatherstoneEntity.qsign (s.multiBody.jointState i).vel) *
              (s.joints.getD i default).sigDamping -
            (s.multiBody.jointState i).vel * (s.joints.getD i default).velDamping) } ∧
    s.applyDamping.joints = s.joints ∧
    s.applyDamping.links = s.links ∧
    s.applyDamping.generalizedForce i =
      s.generalizedForce i +
        FeatherstoneEntity.dampingForce (s.joints.getD i default).sigDamping
          (s.joints.getD i default).velDamping (s.multiBody.jointState i).vel ∧
    (∀ n, s.joints.length ≤ n →
      s.applyDamping.multiBody.jointState n = s.multiBody.jointState n) ∧
    (∀ c v s3, s.setJointDamping i c v = .ok s3 →
      s3.applyDamping.multiBody.jointState i =
        { s3.multiBody.jointState i with
          dampingTorque := (s3.multiBody.jointState i).dampingTorque +
            (-(FeatherstoneEntity.qsign (s3.multiBody.jointState i).vel) * c -
              (s3.multiBody.jointState i).vel * v) }) := by
  refine ⟨?_, rfl, rfl, ?_, ?_, ?_⟩
  · simp [FeatherstoneEntity.applyDamping, hi, FeatherstoneEntity.dampingForce]
  · simp only [FeatherstoneEntity.generalizedForce, FeatherstoneEntity.applyDamping, hi,
      if_pos, if_true]
    simp [hi]
    ring
  · intro n hn
    simp [FeatherstoneEntity.applyDamping, Nat.not_lt.mpr hn]
  · intro c v s3 h3
    unfold FeatherstoneEntity.setJointDamping at h3
    rw [if_pos hi] at h3
    injection h3 with h3
    subst h3
    have hlen : i < (s.joints.set i
        ({ s.joints.getD i default with sigDamping := c, velDamping := v })).length := by
      simpa using hi
    simp [FeatherstoneEntity.applyDamping, hlen, FeatherstoneEntity.dampingForce,
      List.getElem?_set_eq_of_lt, hi]

/-- Witness for C4 on the sample tree's joint 0. -/
theorem applyDamping_adds_damping_force_witness :
    sampleTree.applyDamping.multiBody.jointState 0 =
      { sampleTree.multiBody.jointState 0 with
        dampingTorque := (sampleTree.multiBody.jointState 0).dampingTorque +
          (-(FeatherstoneEntity.qsign (sampleTree.multiBody.jointState 0).vel) *
              (sampleTree.joints.getD 0 default).sigDamping -
            (sampleTree.multiBody.jointState 0).vel *
              (sampleTree.joints.getD 0 default).velDamping) } :=
  (applyDamping_adds_damping_force sampleTree 0 (by decide)).1

/-- Claim C5: `setJointIC i p v` followed, before any step, by
`getJointPosition i` and `getJointVelocity i` returns `p` and `v`
exactly. -/
theorem setJointIC_roundTrip (s : FeatherstoneEntity) (i : ℕ) (p v : ℚ)
    (hi : i < s.joints.length) :
    ∃ s2, s.setJointIC i p v = .ok s2 ∧
      ∃ t, s2.getJointPosition i = .ok (p, t) ∧ s2.getJointVelocity i = .ok (v, t) := by
  unfold FeatherstoneEntity.setJointIC
  rw [if_pos hi]
  refine ⟨_, rfl, (s.joints.getD i default).type, ?_, ?_⟩
  · simp [FeatherstoneEntity.getJointPosition, hi]
  · simp [FeatherstoneEntity.getJointVelocity, hi]

/-- Witness for C5 on the sample tree's joint 0. -/
theorem setJointIC_roundTrip_witness :
    ∃ s2, sampleTree.setJointIC 0 3 7 = .ok s2 ∧
      ∃ t, s2.getJointPosition 0 = .ok (3, t) ∧ s2.getJointVelocity 0 = .ok (7, t) :=
  setJointIC_roundTrip sampleTree 0 3 7 (by decide)

/-- Claim C6: every index-taking operation called with a joint (or link)
index at or above the current joint (or link) count signals an
out-of-range error; in particular `getJointTorque` at an index equal to
the joint count errors instead of returning a value. -/
theorem index_out_of_range_signalled (s : FeatherstoneEntity) (i : ℕ) :
    (s.joints.length ≤ i →
      s.getJointTorque i = .error .outOfRange ∧
      s.getJointPosition i = .error .outOfRange ∧
      s.getJointVelocity i = .error .outOfRange ∧
      s.getJointFeedback i = .error .outOfRange ∧
      (∀ tau, s.driveJoint i tau = .error .outOfRange) ∧
      (∀ p v, s.setJointIC i p v = .error .outOfRange) ∧
      (∀ c v, s.setJointDamping i c v = .error .outOfRange) ∧
      s.addJointMotor i = .error .outOfRange ∧
      (∀ lo hi, s.addJointLimit i lo hi = .error .outOfRange) ∧
      (∀ pos kp, s.motorPositionSetpoint i pos kp = .error .outOfRange) ∧
      (∀ vel kd, s.motorVelocitySetpoint i vel kd = .error .outOfRange)) ∧
    (s.links.length ≤ i →
      s.getLink i = .error .outOfRange ∧
      s.getLinkTransform i = .error .outOfRange ∧
      s.getLinkLinearVelocity i = .error .outOfRange ∧
      s.getLinkAngularVelocity i = .error .outOfRange ∧
      (∀ F, s.addLinkForce i F = .error .outOfRange) ∧
      (∀ tau, s.addLinkTorque i tau = .error .outOfRange)) := by
  constructor
  · intro h
    have hx : ¬ i < s.joints.length := by omega
    exact ⟨by simp [FeatherstoneEntity.getJointTorque, hx],
      by simp [FeatherstoneEntity.getJointPosition, hx],
      by simp [FeatherstoneEntity.getJointVelocity, hx],
      by simp [FeatherstoneEntity.getJointFeedback, hx],
      fun tau => by simp [FeatherstoneEntity.driveJoint, hx],
      fun p v => by simp [FeatherstoneEntity.setJointIC, hx],
      fun c v => by simp [FeatherstoneEntity.setJointDamping, hx],
      by simp [FeatherstoneEntity.addJointMotor, hx],
      fun lo hi => by simp [FeatherstoneEntity.addJointLimit, hx],
      fun pos kp => by simp [FeatherstoneEntity.motorPositionSetpoint, hx],
      fun vel kd => by simp [FeatherstoneEntity.motorVelocitySetpoint, hx]⟩
  · intro h
    have hx : ¬ i < s.links.length := by omega
    exact ⟨by simp [FeatherstoneEntity.getLink, hx],
      by simp [FeatherstoneEntity.getLinkTransform, hx],
      by simp [FeatherstoneEntity.getLinkLinearVelocity, hx],
      by simp [FeatherstoneEntity.getLinkAngularVelocity, hx],
      fun F => by simp [FeatherstoneEntity.addLinkForce, hx],
      fun tau => by simp [FeatherstoneEntity.addLinkTorque, hx]⟩

/-- Witness for C6: on the sample tree (1 joint, 2 links), joint index 1
(equal to the joint count) and link index 2 (equal to the link count)
are rejected; in particular `getJointTorque` errors at the joint count. -/
theorem index_out_of_range_signalled_witness :
    sampleTree.getJointTorque 1 = .error .outOfRange ∧
    sampleTree.getLink 2 = .error .outOfRange :=
  ⟨((index_out_of_range_signalled sampleTree 1).1 (by decide)).1,
   ((index_out_of_range_signalled sampleTree 2).2 (by decide)).1⟩

/-- Claim C7: `AddJointLimit` fails when `lower > upper` or when the
joint is Fixed; the boundary case `lower = upper` succeeds and the
attached limit admits exactly the single position value. -/
theorem addJointLimit_boundary (s : FeatherstoneEntity) (i : ℕ) (lower upper : ℚ)
    (hi : i < s.joints.length) :
    ((s.joints.getD i default).type = .eFixed →
      ∃ e, s.addJointLimit i lower upper = .error e) ∧
    (upper < lower → ∃ e, s.addJointLimit i lower upper = .error e) ∧
    ((s.joints.getD i default).type ≠ .eFixed → ∀ l : ℚ,
      ∃ s2, s.addJointLimit i l l = .ok s2 ∧
        (s2.joints.getD i default).limit = some ⟨l, l⟩ ∧
        ∀ p : ℚ, JointLimitConstraint.admits ⟨l, l⟩ p ↔ p = l) := by
  refine ⟨fun hf => ?_, fun hlt => ?_, fun hnf l => ?_⟩
  · exact ⟨.fixedJointForbidden,
      by unfold FeatherstoneEntity.addJointLimit; rw [if_pos hi, if_pos hf]⟩
  · by_cases hf : (s.joints.getD i default).type = .eFixed
    · exact ⟨.fixedJointForbidden,
        by unfold FeatherstoneEntity.addJointLimit; rw [if_pos hi, if_pos hf]⟩
    · exact ⟨.invalidLimit,
        by unfold FeatherstoneEntity.addJointLimit; rw [if_pos hi, if_neg hf, if_pos hlt]⟩
  · unfold FeatherstoneEntity.addJointLimit
    rw [if_pos hi, if_neg hnf, if_neg (lt_irrefl l)]
    refine ⟨_, rfl, ?_, ?_⟩
    · rw [getD_set_self _ _ _ _ hi]
    · intro p
      unfold JointLimitConstraint.admits
      constructor
      · exact fun hp => le_antisymm hp.2 hp.1
      · intro hp; subst hp; exact ⟨le_refl p, le_refl p⟩

/-- Witness for C7 on the sample tree's revolute joint 0 with the
degenerate limit `[2, 2]`. -/
theorem addJointLimit_boundary_witness :
    ∃ s2, sampleTree.addJointLimit 0 2 2 = .ok s2 ∧
      (s2.joints.getD 0 default).limit = some ⟨2, 2⟩ ∧
      ∀ p : ℚ, JointLimitConstraint.admits ⟨2, 2⟩ p ↔ p = 2 :=
  (addJointLimit_boundary sampleTree 0 2 2 (by decide)).2.2 (by decide) 2

/-- Claim C8: `DriveJoint` adds its argument to the joint's manual
generalized-force accumulator for the current step only — every other
part of the state is untouched, and the next back-end step consumes the
accumulator (resets it to zero). -/
theorem driveJoint_one_step_only (s : FeatherstoneEntity) (i : ℕ) (tau : ℚ)
    (hi : i < s.joints.length) :
    ∃ s2, s.driveJoint i tau = .ok s2 ∧
      s2.links = s.links ∧
      s2.joints = s.joints ∧
      s2.multiBody.jointState i =
        { s.multiBody.jointState i with
          appliedTorque := (s.multiBody.jointState i).appliedTorque + tau } ∧
      (∀ n, n ≠ i → s2.multiBody.jointState n = s.multiBody.jointState n) ∧
      (∀ n, s2.multiBody.linkState n = s.multiBody.linkState n) ∧
      (∀ n, s2.multiBody.jointAxis n = s.multiBody.jointAxis n) ∧
      (∀ integ : ℚ → ℚ → ℚ → ℚ × ℚ, ∀ n, n < s2.joints.length →
        ((FeatherstoneEntity.stepDynamics integ s2).multiBody.jointState n).appliedTorque
          = 0) := by
  unfold FeatherstoneEntity.driveJoint
  rw [if_pos hi]
  refine ⟨_, rfl, rfl, rfl, ?_, ?_, fun n => rfl, fun n => rfl, fun integ n hn => ?_⟩
  · simp
  · intro n hn
    simp [hn]
  · simp only [FeatherstoneEntity.stepDynamics] at hn ⊢
    simp [hn]

/-- Witness for C8: driving the sample tree's joint 0 with torque 5. -/
theorem driveJoint_one_step_only_witness :
    ∃ s2, sampleTree.driveJoint 0 5 = .ok s2 ∧
      s2.links = sampleTree.links ∧
      s2.joints = sampleTree.joints ∧
      s2.multiBody.jointState 0 =
        { sampleTree.multiBody.jointState 0 with
          appliedTorque := (sampleTree.multiBody.jointState 0).appliedTorque + 5 } ∧
      (∀ n, n ≠ 0 → s2.multiBody.jointState n = sampleTree.multiBody.jointState n) ∧
      (∀ n, s2.multiBody.linkState n = sampleTree.multiBody.linkState n) ∧
      (∀ n, s2.multiBody.jointAxis n = sampleTree.multiBody.jointAxis n) ∧
      (∀ integ : ℚ → ℚ → ℚ → ℚ × ℚ, ∀ n, n < s2.joints.length →
        ((FeatherstoneEntity.stepDynamics integ s2).multiBody.jointState n).appliedTorque
          = 0) :=
  driveJoint_one_step_only sampleTree 0 5 (by decide)

/-- Claim C9: every joint, at the moment any `AddXJoint` call creates it,
has no feedback, limit or motor sub-object and zero damping
coefficients; hence it contributes zero damping force to `ApplyDamping`,
and `AddJointMotor`/`AddJointLimit` find no pre-existing sub-object on
it.  The three `AddXJoint` entry points all delegate to `addJoint`. -/
theorem addXJoint_initializes_fresh_joint (s : FeatherstoneEntity) (p c : ℕ)
    (pivot axis : Vec3) (coll : Bool) :
    s.addRevoluteJoint p c pivot axis coll = s.addJoint .eRevolute p c axis ∧
    s.addPrismaticJoint p c axis coll = s.addJoint .ePrismatic p c axis ∧
    s.addFixedJoint p c = s.addJoint .eFixed p c 0 ∧
    (∀ t s2, s.addJoint t p c axis = .ok s2 →
      ((s2.joints.getD s.joints.length default).feedback = none ∧
       (s2.joints.getD s.joints.length default).limit = none ∧
       (s2.joints.getD s.joints.length default).motor = none ∧
       (s2.joints.getD s.joints.length default).sigDamping = 0 ∧
       (s2.joints.getD s.joints.length default).velDamping = 0) ∧
      (∀ vel : ℚ, FeatherstoneEntity.dampingForce
        (s2.joints.getD s.joints.length default).sigDamping
        (s2.joints.getD s.joints.length default).velDamping vel = 0) ∧
      s2.applyDamping.multiBody.jointState s.joints.length =
        s2.multiBody.jointState s.joints.length ∧
      s2.addJointMotor s.joints.length ≠ .error .motorExists ∧
      (t ≠ .eFixed → ∃ s3, s2.addJointMotor s.joints.length = .ok s3) ∧
      (∀ lo hi : ℚ, t ≠ .eFixed → lo ≤ hi →
        ∃ s3, s2.addJointLimit s.joints.length lo hi = .ok s3)) :=
  ⟨rfl, rfl, rfl, fun _ _ h => addJoint_fresh_aux h⟩

/-- Witness for C9: the sample tree's freshly added revolute joint has
empty sub-objects and zero damping, and accepts a motor. -/
theorem addXJoint_initializes_fresh_joint_witness :
    ((sampleTree.joints.getD 0 default).feedback = none ∧
     (sampleTree.joints.getD 0 default).limit = none ∧
     (sampleTree.joints.getD 0 default).motor = none ∧
     (sampleTree.joints.getD 0 default).sigDamping = 0 ∧
     (sampleTree.joints.getD 0 default).velDamping = 0) ∧
    (∃ s3, sampleTree.addJointMotor 0 = .ok s3) :=
  ⟨((addXJoint_initializes_fresh_joint sampleLinked 0 1 0 ⟨0, 0, 1⟩ false).2.2.2
      .eRevolute sampleTree rfl).1,
   ((addXJoint_initializes_fresh_joint sampleLinked 0 1 0 ⟨0, 0, 1⟩ false).2.2.2
      .eRevolute sampleTree rfl).2.2.2.2.1 (by decide)⟩

/-- The feedback read back just after the back end populates it: force,
and torque equal to the cross product of the CoG-to-pivot vector with
the force. -/
theorem solveJointFeedback_get (s : FeatherstoneEntity) (i : ℕ) (r F : Vec3)
    (hi : i < s.joints.length) :
    (s.solveJointFeedback i r F).getJointFeedback i = .ok (F, Vec3.cross r F) := by
  simp [FeatherstoneEntity.solveJointFeedback, FeatherstoneEntity.getJointFeedback, hi,
    List.getElem?_set_eq_of_lt, FeatherstoneEntity.computeJointFeedback]

/-- Claim C2 (amended): the feedback torque equals the cross product of
the CoG-to-pivot vector with the reaction force (both in the child CoG
frame), and is therefore orthogonal to that vector and to the force —
but not, in general, to the joint's motion axis. -/
theorem getJointFeedback_cross_product (s : FeatherstoneEntity) (i : ℕ) (r F : Vec3)
    (hi : i < s.joints.length) :
    (s.solveJointFeedback i r F).getJointFeedback i = .ok (F, Vec3.cross r F) ∧
    Vec3.dot (Vec3.cross r F) r = 0 ∧
    Vec3.dot (Vec3.cross r F) F = 0 :=
  ⟨solveJointFeedback_get s i r F hi,
   by simp only [Vec3.dot, Vec3.cross]; ring,
   by simp only [Vec3.dot, Vec3.cross]; ring⟩

/-- Witness for the amended C2 on the sample tree's joint 0. -/
theorem getJointFeedback_cross_product_witness :
    (sampleTree.solveJointFeedback 0 ⟨1, 0, 0⟩ ⟨0, 1, 0⟩).getJointFeedback 0 =
      .ok (⟨0, 1, 0⟩, Vec3.cross ⟨1, 0, 0⟩ ⟨0, 1, 0⟩) ∧
    Vec3.dot (Vec3.cross ⟨1, 0, 0⟩ ⟨0, 1, 0⟩) ⟨1, 0, 0⟩ = 0 ∧
    Vec3.dot (Vec3.cross ⟨1, 0, 0⟩ ⟨0, 1, 0⟩) ⟨0, 1, 0⟩ = 0 :=
  getJointFeedback_cross_product sampleTree 0 ⟨1, 0, 0⟩ ⟨0, 1, 0⟩ (by decide)

/-- Counterexample to C2 as stated: on the concrete two-link tree whose
revolute joint axis is Z, a reaction force along Y applied with the
pivot displaced along X from the child CoG yields a feedback torque
along Z — parallel, not orthogonal, to the joint's motion axis. -/
theorem getJointFeedback_axis_counterexample :
    c2Tree.getJointFeedback 0 = .ok (⟨0, 1, 0⟩, ⟨0, 0, 1⟩) ∧
    c2Tree.multiBody.jointAxis 0 = ⟨0, 0, 1⟩ ∧
    Vec3.dot ⟨0, 0, 1⟩ (c2Tree.multiBody.jointAxis 0) ≠ 0 := by
  refine ⟨?_, rfl, ?_⟩
  · have h := solveJointFeedback_get sampleTree 0 ⟨1, 0, 0⟩ ⟨0, 1, 0⟩ (by decide)
    have hcross : Vec3.cross ⟨1, 0, 0⟩ ⟨0, 1, 0⟩ = ⟨0, 0, 1⟩ := by
      simp only [Vec3.cross]
      norm_num
    rw [hcross] at h
    exact h
  · show Vec3.dot ⟨0, 0, 1⟩ ⟨0, 0, 1⟩ ≠ 0
    norm_num [Vec3.dot]

theorem Vec3.add_def (a b : Vec3) : a + b = ⟨a.x + b.x, a.y + b.y, a.z + b.z⟩ := rfl

theorem Vec3.sub_def (a b : Vec3) : a - b = ⟨a.x - b.x, a.y - b.y, a.z - b.z⟩ := rfl

theorem Vec3.smul_def (c : ℚ) (v : Vec3) : c • v = ⟨c * v.x, c * v.y, c * v.z⟩ := rfl

/-- A recorded beam distance is never negative: it is either the miss
marker `0` or a Euclidean length. -/
theorem beamDistance_nonneg (origin dir : Vec3) (rmin rmax : ℚ) (hit : Option ℚ) :
    0 ≤ LiDAR360.beamDistance origin dir rmin rmax hit := by
  cases hit with
  | none => exact le_refl 0
  | some f =>
    simp only [LiDAR360.beamDistance, Vec3.length]
    exact Real.sqrt_nonneg _

/-- Claim C10: in `LiDAR360::InternalUpdate`, a missed ray records
exactly 0 (not the maximum range), a hit records the nonnegative length
from the sensor origin to the hit point, the whole buffer is appended to
the history as one all-nonnegative sample, and a genuine zero-distance
hit records the same value as a miss. -/
theorem internalUpdate_beam_spec (st : LiDAR360.State) (origin : Vec3) (dir : ℕ → ℕ → Vec3)
    (rayTest : Vec3 → Vec3 → Option ℚ) (j i : ℕ)
    (hj : j < st.layers) (hi : i < st.resolution) :
    (rayTest (LiDAR360.rayFrom origin (dir j i) st.rangeMin)
        (LiDAR360.rayTo origin (dir j i) st.rangeMax) = none →
      (LiDAR360.internalUpdate st origin dir rayTest).distances (j * st.resolution + i) = 0) ∧
    (∀ f, rayTest (LiDAR360.rayFrom origin (dir j i) st.rangeMin)
        (LiDAR360.rayTo origin (dir j i) st.rangeMax) = some f →
      (LiDAR360.internalUpdate st origin dir rayTest).distances (j * st.resolution + i) =
        Vec3.length (lerp (LiDAR360.rayFrom origin (dir j i) st.rangeMin)
          (LiDAR360.rayTo origin (dir j i) st.rangeMax) f - origin)) ∧
    0 ≤ (LiDAR360.internalUpdate st origin dir rayTest).distances (j * st.resolution + i) ∧
    (LiDAR360.internalUpdate st origin dir rayTest).history =
      st.history ++ [List.ofFn (fun k : Fin (st.resolution * st.layers) =>
        (LiDAR360.internalUpdate st origin dir rayTest).distances k)] ∧
    (∀ x ∈ List.ofFn (fun k : Fin (st.resolution * st.layers) =>
        (LiDAR360.internalUpdate st origin dir rayTest).distances k), 0 ≤ x) ∧
    LiDAR360.beamDistance origin (dir j i) 0 st.rangeMax (some 0) =
      LiDAR360.beamDistance origin (dir j i) 0 st.rangeMax none := by
  have hres : 0 < st.resolution := by omega
  have hidx : j * st.resolution + i < st.resolution * st.layers := by
    have h1 : j * st.resolution + i < (j + 1) * st.resolution := by
      rw [Nat.succ_mul]; omega
    have h2 : (j + 1) * st.resolution ≤ st.layers * st.resolution :=
      Nat.mul_le_mul_right _ (Nat.succ_le_of_lt hj)
    calc j * st.resolution + i < (j + 1) * st.resolution := h1
      _ ≤ st.layers * st.resolution := h2
      _ = st.resolution * st.layers := Nat.mul_comm _ _
  have hdiv : (j * st.resolution + i) / st.resolution = j := by
    rw [Nat.add_comm, Nat.add_mul_div_right _ _ hres, Nat.div_eq_of_lt hi, Nat.zero_add]
  have hmod : (j * st.resolution + i) % st.resolution = i := by
    rw [Nat.add_comm, Nat.add_mul_mod_self_right, Nat.mod_eq_of_lt hi]
  have hbeam : (LiDAR360.internalUpdate st origin dir rayTest).distances
      (j * st.resolution + i) =
      LiDAR360.beamDistance origin (dir j i) st.rangeMin st.rangeMax
        (rayTest (LiDAR360.rayFrom origin (dir j i) st.rangeMin)
          (LiDAR360.rayTo origin (dir j i) st.rangeMax)) := by
    simp only [LiDAR360.internalUpdate]
    rw [if_pos hidx, hdiv, hmod]
  refine ⟨?_, ?_, ?_, rfl, ?_, ?_⟩
  · intro h
    rw [hbeam, h]
    rfl
  · intro f hf
    rw [hbeam, hf]
    rfl
  · rw [hbeam]
    exact beamDistance_nonneg _ _ _ _ _
  · intro x hx
    rw [List.mem_ofFn] at hx
    obtain ⟨k, hk⟩ := hx
    rw [← hk]
    simp only [LiDAR360.internalUpdate]
    rw [if_pos k.isLt]
    exact beamDistance_nonneg _ _ _ _ _
  · have hv : lerp (LiDAR360.rayFrom origin (dir j i) 0)
        (LiDAR360.rayTo origin (dir j i) st.rangeMax) 0 - origin = (⟨0, 0, 0⟩ : Vec3) := by
      simp only [lerp, LiDAR360.rayFrom, LiDAR360.rayTo, Vec3.add_def, Vec3.sub_def,
        Vec3.smul_def]
      rw [Vec3.mk.injEq]
      refine ⟨by ring, by ring, by ring⟩
    simp only [LiDAR360.beamDistance]
    rw [hv]
    simp [Vec3.length, Vec3.normSq, Vec3.dot]

/-- Witness for C10 on a concrete 4-by-2 scan with an all-miss ray
oracle: beam (layer 1, step 2) records 0 and is nonnegative. -/
theorem internalUpdate_beam_spec_witness :
    ((LiDAR360.internalUpdate sampleLidar 0 (fun _ _ => ⟨1, 0, 0⟩)
        (fun _ _ => none)).distances (1 * 4 + 2) = 0) ∧
    (0 ≤ (LiDAR360.internalUpdate sampleLidar 0 (fun _ _ => ⟨1, 0, 0⟩)
        (fun _ _ => none)).distances (1 * 4 + 2)) :=
  ⟨(internalUpdate_beam_spec sampleLidar 0 (fun _ _ => ⟨1, 0, 0⟩) (fun _ _ => none) 1 2
      (by decide) (by decide)).1 rfl,
   (internalUpdate_beam_spec sampleLidar 0 (fun _ _ => ⟨1, 0, 0⟩) (fun _ _ => none) 1 2
      (by decide) (by decide)).2.2.1⟩

end Stonefish
